import Mathlib

/-!
Verification of the dividend-yield data pipeline: the resilient HTTP client
(`fetchWithRetry`), the fundamentals fetcher (`fetchStockFundamentals`), the
cached fetcher (`fetcher`), the sector mapping (`getSectorTranslation`) and the
snapshot job (`runSnapshotJob`), shallowly embedded from the TypeScript source.
Effects are made explicit: HTTP traffic is an oracle of per-attempt outcomes,
the retry loop is fuelled by its own attempt budget, and the snapshot job
produces a trace of observable events (status checks, HTTP calls, cache
writes).
-/

/-- The JavaScript `Error` values thrown by the pipeline: the three custom
classes `RateLimitError`, `NetworkError`, `ValidationError` from types.ts, and
`other name msg` for any other `Error` with its `.name` (e.g. a `SyntaxError`
from `res.json()`, or a redis client error). -/
inductive JsError
  | rateLimit (msg : String)
  | network (msg : String)
  | validation (msg : String)
  | other (name msg : String)
deriving DecidableEq, Repr

/-- The `.name` property of the error object. -/
def errName : JsError → String
  | .rateLimit _ => "RateLimitError"
  | .network _ => "NetworkError"
  | .validation _ => "ValidationError"
  | .other n _ => n

/-- The `.message` property of the error object. -/
def errMsg : JsError → String
  | .rateLimit m => m
  | .network m => m
  | .validation m => m
  | .other _ m => m

/-- Outcome of one `fetchWithTimeout` call: either an HTTP response (status,
optional `Retry-After` header, and — for the 2xx path — the result of the
caller-supplied `parseResponse`), or a thrown error (a timeout surfaces as
`NetworkError "Request timeout"`; connection failures as other errors). -/
inductive AttemptOutcome (T : Type)
  | response (status : Nat) (retryAfter : Option Nat) (parse : Except JsError T)
  | throwErr (e : JsError)

/-- Result of the `try` block of one loop iteration of `fetchWithRetry`:
a returned value, a thrown error (to be handled by the `catch`), or a
`continue` (the 429/5xx retry paths). -/
inductive TryResult (T : Type)
  | ok (t : T)
  | err (e : JsError)
  | cont

/-- The `try` block of `fetchWithRetry` (dataFetcher), for attempt index
`attempt` with budget `maxRetries`: 429 retries (or exhausts to a
`RateLimitError`), 5xx retries (or exhausts to a `NetworkError`), other 4xx is
a `ValidationError`, 2xx parses (a parse failure is thrown as-is), anything
else is a `NetworkError` "Unexpected status". -/
def tryBody {T : Type} (maxRetries attempt : Nat) : AttemptOutcome T → TryResult T
  | .throwErr e => .err e
  | .response status _retryAfter parse =>
    if status = 429 then
      if attempt < maxRetries then .cont
      else .err (.rateLimit "API rate limit exceeded")
    else if 500 ≤ status ∧ status < 600 then
      if attempt < maxRetries then .cont
      else .err (.network ("Server error: " ++ toString status))
    else if 400 ≤ status ∧ status < 500 then
      .err (.validation ("Client error: " ++ toString status))
    else if 200 ≤ status ∧ status < 300 then
      match parse with
      | .ok t => .ok t
      | .error e => .err e
    else .err (.network ("Unexpected status: " ++ toString status))

/-- The `catch` block's rethrow condition in `fetchWithRetry`: an error is
rethrown immediately (never retried) when it is a `ValidationError`, a
`RateLimitError`, or any error whose name is not "NetworkError" and whose
message is not "Request timeout". -/
def rethrowImmediately (e : JsError) : Bool :=
  match e with
  | .validation _ => true
  | .rateLimit _ => true
  | e => errName e != "NetworkError" && errMsg e != "Request timeout"

/-- The retry loop of `fetchWithRetry`, fuelled by the number of remaining
iterations (`maxRetries + 1` at the start). `attempt` is the zero-indexed
attempt counter, `lastError` the last caught error, `made` the number of HTTP
attempts issued so far. Returns the call's result together with the total
number of HTTP attempts. -/
def fetchLoop {T : Type} (oracle : Nat → AttemptOutcome T) (maxRetries : Nat) :
    Nat → Nat → Option JsError → Nat → Except JsError T × Nat
  | 0, _, lastError, made =>
      (.error (lastError.getD (.network "Max retries exceeded")), made)
  | fuel + 1, attempt, lastError, made =>
      match tryBody maxRetries attempt (oracle attempt) with
      | .ok t => (.ok t, made + 1)
      | .cont => fetchLoop oracle maxRetries fuel (attempt + 1) lastError (made + 1)
      | .err e =>
          if rethrowImmediately e then (.error e, made + 1)
          else fetchLoop oracle maxRetries fuel (attempt + 1) (some e) (made + 1)

/-- `fetchWithRetry(url, options, parseResponse, maxRetries)` from dataFetcher:
at most `maxRetries + 1` total attempts, each drawn from `oracle`. Returns the
result and the number of attempts made. -/
def fetchWithRetry {T : Type} (oracle : Nat → AttemptOutcome T) (maxRetries : Nat) :
    Except JsError T × Nat :=
  fetchLoop oracle maxRetries (maxRetries + 1) 0 none 0

/-- JS `String.prototype.toLowerCase` on the ASCII sector labels, written as a
structural map over the string's characters so that it evaluates by reduction
(`String.toLower` in core is defined by well-founded recursion). -/
def toLowerCase (s : String) : String := ⟨s.data.map Char.toLower⟩

/-- `getSectorTranslation` from dataFetcher: a `switch` on the lowercased
sector. The source contains the case key "basic materials" twice; JavaScript
takes the first matching case, so the second occurrence ("Agriculture") is
unreachable. -/
def getSectorTranslation (sector : String) : String :=
  let s := toLowerCase sector
  if s = "technology" ∨ s = "industrials" ∨ s = "basic materials" then "Manufacturing"
  else if s = "healthcare" ∨ s = "financial services" ∨ s = "communication services" then "Services"
  else if s = "basic materials" then "Agriculture"
  else if s = "consumer cyclical" ∨ s = "consumer defensive" then "Retail"
  else if s = "real estate" then "Property"
  else if s = "utilities" ∨ s = "energy" then "Energy"
  else "Unknown"

/-- The closed set of sector labels the spec names: the six translated
categories plus "Unknown". -/
def sectorLabels : List String :=
  ["Manufacturing", "Services", "Agriculture", "Retail", "Property", "Energy", "Unknown"]

/-- JavaScript truthiness of an optional string field: present and non-empty. -/
def truthy : Option String → Bool
  | none => false
  | some s => s != ""

/-- Digits-to-number accumulator used by `parseFloat`. -/
def digitsToNat (ds : List Char) : Nat :=
  ds.foldl (fun acc c => acc * 10 + (c.toNat - 48)) 0

/-- JS `parseFloat`, modelled on the plain nonnegative decimal literals the
Alpha Vantage API returns (optionally `digits.digits`); `none` is `NaN`.
(The JS builtin also accepts signs, exponents and trailing garbage — none of
which occur in `DividendYield` values.) -/
def parseFloat (s : String) : Option ℚ :=
  let cs := s.data
  let ip := cs.takeWhile (fun c => c != '.')
  let fp := (cs.dropWhile (fun c => c != '.')).drop 1
  if (ip.isEmpty && fp.isEmpty) || !ip.all Char.isDigit || !fp.all Char.isDigit then none
  else some ((digitsToNat ip : ℚ) + (digitsToNat fp : ℚ) / (10 : ℚ) ^ fp.length)

/-- The dividend-yield normalization in `fetchStockFundamentals`: sentinel
strings ("None", "-"), absent/empty values and unparseable values give 0;
otherwise the parsed fraction is multiplied by 100 to express a percentage. -/
def parseDividendYield (dy : Option String) : ℚ :=
  if truthy dy && dy != some "None" && dy != some "-" then
    match parseFloat (dy.getD "") with
    | none => 0
    | some q => q * 100
  else 0

/-- `StockData` from types.ts (yield as an exact rational). -/
structure StockData where
  ticker : String
  name : String
  sector : String
  yield : ℚ
deriving DecidableEq, Repr

/-- `AlphaVantageResponse` from types.ts; `ErrorMessage` stands for the
`"Error Message"` field. -/
structure AlphaVantageResponse where
  Symbol : Option String := none
  Sector : Option String := none
  DividendYield : Option String := none
  Note : Option String := none
  ErrorMessage : Option String := none
deriving DecidableEq, Repr

/-- One entry of the SEC `company_tickers.json` object. -/
structure SECTickerEntry where
  cik : Nat
  ticker : String
  title : String
deriving DecidableEq, Repr

/-- `MAX_RETRIES` from dataFetcher. -/
def MAX_RETRIES : Nat := 3

/-- `fetchTickers` from dataFetcher: fetch the SEC ticker file with retry and
map each entry to its ticker. Returns the result and the HTTP attempts made. -/
def fetchTickers (oracle : Nat → AttemptOutcome (List SECTickerEntry)) :
    Except JsError (List String) × Nat :=
  match fetchWithRetry oracle MAX_RETRIES with
  | (.error e, n) => (.error e, n)
  | (.ok entries, n) => (.ok (entries.map (fun en => en.ticker)), n)

/-- `fetchStockFundamentals(ticker)` from dataFetcher. Note it takes NO cache
input: the source function never touches redis — every call goes to
`fetchWithRetry` against the external API (the read-through cache lives in
`fetcher` below). A missing API key throws a plain `Error`. The three API-level
anomalies are checked in order: error payload → Validation, rate-limit note →
RateLimit, missing `Symbol` → Validation. Returns the result and the number of
external HTTP attempts made. -/
def fetchStockFundamentals (ticker : String) (apiKey : Option String)
    (oracle : Nat → AttemptOutcome AlphaVantageResponse) :
    Except JsError StockData × Nat :=
  if !truthy apiKey then
    (.error (.other "Error" "ALPHA_VANTAGE_API_KEY environment variable not set"), 0)
  else
    match fetchWithRetry oracle MAX_RETRIES with
    | (.error e, n) => (.error e, n)
    | (.ok resp, n) =>
      if truthy resp.ErrorMessage then
        (.error (.validation ("Invalid ticker symbol: " ++ ticker)), n)
      else if truthy resp.Note then
        (.error (.rateLimit "Alpha Vantage API rate limit reached"), n)
      else if !truthy resp.Symbol then
        (.error (.validation ("No data found for ticker: " ++ ticker)), n)
      else
        (.ok { ticker := resp.Symbol.getD "", name := resp.Symbol.getD "",
               sector := if truthy resp.Sector then getSectorTranslation (resp.Sector.getD "")
                         else "Unknown",
               yield := parseDividendYield resp.DividendYield }, n)

/-- Lookup in the association-list model of the redis key space. -/
def redisGet (store : List (String × String)) (key : String) : Option String :=
  (store.find? (fun kv => kv.1 == key)).map (fun kv => kv.2)

/-- `set` always overwrites regardless of prior content. -/
def redisSet (store : List (String × String)) (key val : String) :
    List (String × String) :=
  (key, val) :: store.filter (fun kv => kv.1 != key)

/-- The redis client's state: the key space plus whether the underlying store
is reachable. -/
structure RedisState where
  store : List (String × String)
  reachable : Bool
deriving DecidableEq, Repr

/-- `redisClient.get(key)`: the value or absence; when the store is
unreachable the client throws a plain client error (name "ClientClosedError",
as node-redis throws — not one of the pipeline's three typed errors). -/
def rcGet (rs : RedisState) (key : String) : Except JsError (Option String) :=
  if rs.reachable then .ok (redisGet rs.store key)
  else .error (.other "ClientClosedError" "The client is closed")

/-- `redisClient.set(key, value)`: same unreachability behaviour as `rcGet`. -/
def rcSet (rs : RedisState) (key val : String) : Except JsError RedisState :=
  if rs.reachable then .ok { rs with store := redisSet rs.store key val }
  else .error (.other "ClientClosedError" "The client is closed")

/-- `JSON.stringify({error, message})` for the fetcher's structured error
payloads. (`\x7b`/`\x7d` are the literal braces.) -/
def errorJSON (code msg : String) : String :=
  "\x7b\"error\":\"" ++ code ++ "\",\"message\":\"" ++ msg ++ "\"\x7d"

/-- The `catch` block of `fetcher`: every thrown error is converted to a JSON
error payload which is RETURNED as an ordinary string — nothing is rethrown.
Errors that are none of the three typed classes (in particular redis client
errors when the store is unreachable) land in the generic UNKNOWN_ERROR arm. -/
def catchToJSON (e : JsError) : String :=
  match e with
  | .rateLimit _ => errorJSON "RATE_LIMIT" "API rate limit exceeded. Please try again later."
  | .validation msg => errorJSON "VALIDATION_ERROR" msg
  | .network _ => errorJSON "NETWORK_ERROR" "Network error occurred. Please try again."
  | .other _ _ => errorJSON "UNKNOWN_ERROR" "An unexpected error occurred."

/-- Rendering of the yield number inside `JSON.stringify(stockData)`: exact
for integral values; an injective rendering otherwise (no claim inspects the
non-integral text). -/
def ratJSON (q : ℚ) : String :=
  if q.den = 1 then toString q.num else toString q.num ++ "/" ++ toString q.den

/-- `JSON.stringify` of a `StockData` record. -/
def stockDataJSON (d : StockData) : String :=
  "\x7b\"ticker\":\"" ++ d.ticker ++ "\",\"name\":\"" ++ d.name ++
    "\",\"sector\":\"" ++ d.sector ++ "\",\"yield\":" ++ ratJSON d.yield ++ "\x7d"

/-- `JSON.stringify` of the ticker array. -/
def tickersJSON (ts : List String) : String :=
  "[" ++ String.intercalate "," (ts.map (fun t => "\"" ++ t ++ "\"")) ++ "]"

/-- `fetcher(key, redisClient)` from dataFetcher: the per-key read-through
cache. Checks the cache first (a cache hit returns the cached string with ZERO
external HTTP attempts); on a miss fetches (the ticker universe for key
"tickers", otherwise `fetchStockFundamentals` for the symbol), caches and
returns the JSON. The whole body sits in a try/catch whose catch returns
`catchToJSON` of the thrown error. Returns (returned string, cache state
after, external HTTP attempts made). -/
def fetcher (key : String) (rs : RedisState) (apiKey : Option String)
    (oracleSEC : Nat → AttemptOutcome (List SECTickerEntry))
    (oracleAV : Nat → AttemptOutcome AlphaVantageResponse) :
    String × RedisState × Nat :=
  if key = "" then (catchToJSON (.validation "Invalid key provided"), rs, 0)
  else
    match rcGet rs key with
    | .error e => (catchToJSON e, rs, 0)
    | .ok cached =>
      if truthy cached then (cached.getD "", rs, 0)
      else if key = "tickers" then
        match fetchTickers oracleSEC with
        | (.error e, n) => (catchToJSON e, rs, n)
        | (.ok tickers, n) =>
          match rcSet rs "tickers" (tickersJSON tickers) with
          | .error e => (catchToJSON e, rs, n)
          | .ok rs2 => (tickersJSON tickers, rs2, n)
      else
        match fetchStockFundamentals key apiKey oracleAV with
        | (.error e, n) => (catchToJSON e, rs, n)
        | (.ok d, n) =>
          match rcSet rs key (stockDataJSON d) with
          | .error e => (catchToJSON e, rs, n)
          | .ok rs2 => (stockDataJSON d, rs2, n)

/-- Redis keys from snapshotJob.ts. The job-trace events `progressWrite`,
`snapshotWrite` and `statusWrite` stand for `redisClient.set` on
`JOB_PROGRESS_KEY`, `SNAPSHOT_KEY` (with its 24h TTL) and `JOB_STATUS_KEY`. -/
def JOB_STATUS_KEY : String := "snapshot:job:status"

def JOB_PROGRESS_KEY : String := "snapshot:job:progress"

def SNAPSHOT_KEY : String := "snapshot:all"

/-- `Math.ceil(a / b)` on nonnegative integers (b > 0 in every use: the
requests-per-minute budget). -/
def ceilDiv (a b : Nat) : Nat := (a + b - 1) / b

/-- `JobProgress` from snapshotJob.ts. -/
structure JobProgress where
  completed : Nat
  total : Nat
  startedAt : String
  estimatedMinutes : Nat
deriving DecidableEq, Repr

/-- Observable events of a snapshot-job run, in chronological order.
`statusCheck` is the per-iteration read of `JOB_STATUS_KEY`; `httpCall`
records the external HTTP attempts made fetching one ticker; the write events
record the values persisted to the cache. `progressWrite` also records the
failed count at write time (ghost data, for stating the estimate formula). -/
inductive JobEvent
  | statusCheck (i : Nat) (observed : Option String)
  | httpCall (i : Nat) (ticker : String) (attempts : Nat)
  | progressWrite (p : JobProgress) (failedAtWrite : Nat)
  | snapshotWrite (entries : List StockData)
  | statusWrite (s : String)
deriving DecidableEq, Repr

/-- The snapshot job's environment: `statusAt i` is what the per-iteration
cancellation read of `JOB_STATUS_KEY` observes (the key is shared — an external
`cancelJob` may overwrite it between iterations); `fetchAt i t` is the result
of `fetchStockFundamentals(t)` at iteration `i` together with the external
HTTP attempts it made. -/
structure JobEnv where
  statusAt : Nat → Option String
  fetchAt : Nat → String → Except JsError StockData × Nat

/-- The main loop of `runSnapshotJob`, one iteration per ticker: re-read the
status (stop if it is no longer "running" — returning WITHOUT writing a
snapshot); fetch the ticker (a success with yield > 0 is appended to the
in-memory snapshot and increments `completed`, a failure increments `failed`);
checkpoint progress when `completed % 50 == 0 || completed == total`,
re-reading the progress entry for its `startedAt` (the job is the sole writer
of that key while running, so the re-read returns the job's last write,
threaded here as `pv`). After the loop the snapshot and status "idle" are
persisted. -/
def jobLoop (env : JobEnv) (total rpm : Nat) :
    List String → Nat → Nat → Nat → List StockData → JobProgress → List JobEvent
  | [], _i, _completed, _failed, snapshot, _pv =>
      [.snapshotWrite snapshot, .statusWrite "idle"]
  | ticker :: rest, i, completed, failed, snapshot, pv =>
      let observed := env.statusAt i
      if observed ≠ some "running" then [.statusCheck i observed]
      else
        let fr := env.fetchAt i ticker
        let completed2 := match fr.1 with | .ok _ => completed + 1 | .error _ => completed
        let failed2 := match fr.1 with | .ok _ => failed | .error _ => failed + 1
        let snapshot2 := match fr.1 with
          | .ok d => if d.yield > 0 then snapshot ++ [d] else snapshot
          | .error _ => snapshot
        if completed2 % 50 = 0 ∨ completed2 = total then
          let p : JobProgress :=
            { completed := completed2, total := total, startedAt := pv.startedAt,
              estimatedMinutes := ceilDiv (total - completed2 - failed2) rpm }
          JobEvent.statusCheck i observed :: JobEvent.httpCall i ticker fr.2 ::
            JobEvent.progressWrite p failed2 ::
            jobLoop env total rpm rest (i + 1) completed2 failed2 snapshot2 p
        else
          JobEvent.statusCheck i observed :: JobEvent.httpCall i ticker fr.2 ::
            jobLoop env total rpm rest (i + 1) completed2 failed2 snapshot2 pv

/-- `runSnapshotJob(redisClient)` from snapshotJob.ts as a trace of events.
`initialStatus` is what the start guard reads from `JOB_STATUS_KEY` (if
"running", the trigger is a no-op: empty trace); `tickersCache` the cached
ticker universe (absence throws); `now` the ISO timestamp taken at
initialization; `rpm` the configured requests-per-minute budget. -/
def runSnapshotJob (env : JobEnv) (initialStatus : Option String)
    (tickersCache : Option (List String)) (now : String) (rpm : Nat) :
    Except String (List JobEvent) :=
  if initialStatus = some "running" then .ok []
  else
    match tickersCache with
    | none => .error "Tickers not in cache. Run fetcher(\"tickers\", ...) first."
    | some tickers =>
      let total := tickers.length
      let p0 : JobProgress :=
        { completed := 0, total := total, startedAt := now,
          estimatedMinutes := ceilDiv total rpm }
      .ok (JobEvent.statusWrite "running" :: JobEvent.progressWrite p0 0 ::
            jobLoop env total rpm tickers 0 0 0 [] p0)

/-- `getJobStatus` from snapshotJob.ts: read the status key, defaulting to
"idle" when the key is absent. -/
def getJobStatus (store : List (String × String)) : String :=
  (redisGet store JOB_STATUS_KEY).getD "idle"

/-- The values written to `JOB_PROGRESS_KEY` during a run, in order, each with
the failed count at write time. -/
def progressWritesOf : List JobEvent → List (JobProgress × Nat)
  | [] => []
  | .progressWrite p f :: tr => (p, f) :: progressWritesOf tr
  | _ :: tr => progressWritesOf tr

/-- The snapshots persisted to `SNAPSHOT_KEY` during a run, in order. -/
def snapshotWritesOf : List JobEvent → List (List StockData)
  | [] => []
  | .snapshotWrite s :: tr => s :: snapshotWritesOf tr
  | _ :: tr => snapshotWritesOf tr

/-- The completed counts of the progress writes of a run, in write order. -/
def completedsOf : List JobEvent → List Nat
  | [] => []
  | .progressWrite p _ :: tr => p.completed :: completedsOf tr
  | _ :: tr => completedsOf tr

/-- A job environment in which every fetch fails with a Validation error (no
rational arithmetic at all — every trace equality over it is definitional) and
no cancellation occurs. -/
def failEnv : JobEnv :=
  { statusAt := fun _ => some "running",
    fetchAt := fun _ _ => (.error (.validation "bad ticker"), 1) }

/-- A job environment in which every status read observes "idle" — an external
cancellation (or a never-started job) visible from iteration 0 on. -/
def cancelEnv : JobEnv :=
  { statusAt := fun _ => some "idle",
    fetchAt := fun _ _ => (.error (.validation "bad ticker"), 1) }

/-- A successful Alpha Vantage overview response for "AAA": 4% dividend yield
(the API reports the fraction "0.04"), no sector. -/
def aaaResponse : AlphaVantageResponse :=
  { Symbol := some "AAA", DividendYield := some "0.04" }

/-- The normalized record `fetchStockFundamentals` produces for
`aaaResponse`. -/
def aaaRecord : StockData :=
  { ticker := "AAA", name := "AAA", sector := "Unknown", yield := 4 }

/-- Per-ticker HTTP behaviour for the AAA/BBB end-to-end scenario: "AAA"
succeeds on its first attempt; any other ticker receives the API's explicit
error payload (→ Validation error). -/
def scenarioAvOracle (t : String) : Nat → AttemptOutcome AlphaVantageResponse :=
  fun _ =>
    if t = "AAA" then AttemptOutcome.response 200 none (Except.ok aaaResponse)
    else AttemptOutcome.response 200 none
      (Except.ok { ErrorMessage := some "Invalid API call" })

/-- The job environment for the AAA/BBB scenario: no cancellation (every
status read observes "running"), and the per-symbol fetch is the real
`fetchStockFundamentals` against `scenarioAvOracle` — exactly the call the
job's source makes. -/
def scenarioEnv : JobEnv :=
  { statusAt := fun _ => some "running",
    fetchAt := fun _ t => fetchStockFundamentals t (some "key") (scenarioAvOracle t) }

/-- The trace of the snapshot job over ["AAA", "BBB"] in the scenario: AAA
succeeds (completed = 1, no checkpoint since 1 % 50 ≠ 0 and 1 ≠ 2), BBB fails
(failed = 1, still no checkpoint), then the snapshot [AAA] and status "idle"
are persisted. -/
def c2Trace : List JobEvent :=
  [JobEvent.statusWrite "running",
   JobEvent.progressWrite ⟨0, 2, "T0", 1⟩ 0,
   JobEvent.statusCheck 0 (some "running"),
   JobEvent.httpCall 0 "AAA" 1,
   JobEvent.statusCheck 1 (some "running"),
   JobEvent.httpCall 1 "BBB" 1,
   JobEvent.snapshotWrite [aaaRecord],
   JobEvent.statusWrite "idle"]

/-- Per-ticker HTTP behaviour for the final-symbol-checkpoint scenario: "BBB"
succeeds (5% yield), any other ticker hits the API's error payload. -/
def c3AvOracle (t : String) : Nat → AttemptOutcome AlphaVantageResponse :=
  fun _ =>
    if t = "BBB" then AttemptOutcome.response 200 none
      (Except.ok { Symbol := some "BBB", DividendYield := some "0.05" })
    else AttemptOutcome.response 200 none
      (Except.ok { ErrorMessage := some "Invalid API call" })

/-- Job environment for the final-symbol-checkpoint scenario. -/
def c3Env : JobEnv :=
  { statusAt := fun _ => some "running",
    fetchAt := fun _ t => fetchStockFundamentals t (some "key") (c3AvOracle t) }

/-- The record produced for "BBB" in that scenario. -/
def bbbRecord : StockData :=
  { ticker := "BBB", name := "BBB", sector := "Unknown", yield := 5 }

/-- Trace of the job over ["AAA", "BBB"] when AAA fails and BBB succeeds:
after AAA, completed = 0 and 0 % 50 = 0 triggers a checkpoint (completed = 0,
failed = 1); after the FINAL symbol BBB, completed = 1 meets neither
`completed % 50 == 0` nor `completed == total` (total = 2, one failure), so NO
checkpoint is written on the final symbol. -/
def c3Trace : List JobEvent :=
  [JobEvent.statusWrite "running",
   JobEvent.progressWrite ⟨0, 2, "T0", 1⟩ 0,
   JobEvent.statusCheck 0 (some "running"),
   JobEvent.httpCall 0 "AAA" 1,
   JobEvent.progressWrite ⟨0, 2, "T0", 1⟩ 1,
   JobEvent.statusCheck 1 (some "running"),
   JobEvent.httpCall 1 "BBB" 1,
   JobEvent.snapshotWrite [bbbRecord],
   JobEvent.statusWrite "idle"]

theorem getSectorTranslation_mem (s : String) :
    getSectorTranslation s ∈ sectorLabels := by
  simp only [getSectorTranslation, sectorLabels]
  split_ifs <;> simp

theorem getSectorTranslation_cases (s : String) :
    getSectorTranslation s = "Manufacturing" ∨ getSectorTranslation s = "Services" ∨
    getSectorTranslation s = "Agriculture" ∨ getSectorTranslation s = "Retail" ∨
    getSectorTranslation s = "Property" ∨ getSectorTranslation s = "Energy" ∨
    getSectorTranslation s = "Unknown" := by
  simp only [getSectorTranslation]
  split_ifs <;> simp

/-- C5: with `maxRetries = 3`, a call whose every attempt receives an HTTP 503
response makes exactly 4 total attempts (`maxRetries + 1`) and fails with a
`NetworkError` ("Server error: 503"), whatever the response headers and bodies
are. -/
theorem c5_always_503_four_attempts_network_error {T : Type}
    (ra : Nat → Option Nat) (p : Nat → Except JsError T) :
    fetchWithRetry (fun i => AttemptOutcome.response 503 (ra i) (p i)) 3 =
      (Except.error (JsError.network "Server error: 503"), 4) := rfl

/-- C6 counterexample: a 2xx response whose body fails to parse does NOT fail
with a Network error: the raw parse error (a `SyntaxError` from `res.json()`)
is rethrown as-is by the retry loop's catch block — its name is "SyntaxError",
not "NetworkError" — after exactly one attempt. -/
theorem c6_parse_error_is_not_network_error :
    fetchWithRetry (T := Unit) (fun _ => AttemptOutcome.response 200 none
        (Except.error (JsError.other "SyntaxError" "Unexpected token in JSON")))
      3 = (Except.error (JsError.other "SyntaxError" "Unexpected token in JSON"), 1)
    ∧ errName (JsError.other "SyntaxError" "Unexpected token in JSON") ≠ "NetworkError" :=
  ⟨rfl, by decide⟩

/-- C6 amended: when a 2xx response's body fails to parse, the call fails
immediately — exactly one attempt, never retried — with the parser's own error
(whose name, e.g. "SyntaxError", differs from "NetworkError"); the retry loop
classifies it as non-network and rethrows it unchanged rather than converting
it to a Network error. -/
theorem c6_parse_failure_fails_immediately_with_parse_error {T : Type}
    (oracle : Nat → AttemptOutcome T) (maxRetries status : Nat)
    (ra : Option Nat) (nm m : String)
    (hs1 : 200 ≤ status) (hs2 : status < 300)
    (h0 : oracle 0 = AttemptOutcome.response status ra (Except.error (JsError.other nm m)))
    (hnm : nm ≠ "NetworkError") (hm : m ≠ "Request timeout") :
    fetchWithRetry oracle maxRetries = (Except.error (JsError.other nm m), 1) := by
  have hrethrow : rethrowImmediately (JsError.other nm m) = true := by
    simp [rethrowImmediately, errName, errMsg, hnm, hm]
  show fetchLoop oracle maxRetries (maxRetries + 1) 0 none 0 = _
  rw [fetchLoop, h0]
  simp only [tryBody]
  rw [if_neg (by omega), if_neg (by omega), if_neg (by omega),
    if_pos (show 200 ≤ status ∧ status < 300 from ⟨hs1, hs2⟩)]
  simp [hrethrow]

theorem c6_parse_failure_fails_immediately_with_parse_error_witness :
    fetchWithRetry (T := Unit) (fun _ => AttemptOutcome.response 200 none
        (Except.error (JsError.other "SyntaxError" "bad json"))) 3 =
      (Except.error (JsError.other "SyntaxError" "bad json"), 1) :=
  c6_parse_failure_fails_immediately_with_parse_error _ 3 200 none "SyntaxError" "bad json"
    (by decide) (by decide) rfl (by decide) (by decide)

/-- C7 counterexample: `getSectorTranslation` is not idempotent: "Technology"
maps to "Manufacturing", but applying the mapping to that output yields
"Unknown", not "Manufacturing". -/
theorem c7_sector_mapping_not_idempotent :
    getSectorTranslation "Technology" = "Manufacturing" ∧
    getSectorTranslation (getSectorTranslation "Technology") = "Unknown" := by
  exact ⟨by decide, by decide⟩

/-- C7 amended: `getSectorTranslation` is total (a total function — no input
throws) and every output is one of the six known labels or "Unknown"; but
re-applying the mapping to its own output returns the same value only when
that output is "Energy" or "Unknown" (the only output labels that are
themselves lookup keys); every other output re-maps to "Unknown". -/
theorem c7_sector_mapping_total_closed_range (s : String) :
    getSectorTranslation s ∈ sectorLabels ∧
    getSectorTranslation (getSectorTranslation s) =
      (if getSectorTranslation s = "Energy" ∨ getSectorTranslation s = "Unknown"
       then getSectorTranslation s else "Unknown") := by
  refine ⟨getSectorTranslation_mem s, ?_⟩
  rcases getSectorTranslation_cases s with h | h | h | h | h | h | h <;> rw [h] <;> decide

/-- C10: for every cache state in which the job-status key is absent (never
written or cleared), `getJobStatus` returns "idle" — it neither fails nor
reports absence. -/
theorem c10_missing_status_key_reads_idle
    (store : List (String × String))
    (h : redisGet store JOB_STATUS_KEY = none) :
    getJobStatus store = "idle" := by
  simp [getJobStatus, h]

theorem c10_missing_status_key_reads_idle_witness :
    redisGet [] JOB_STATUS_KEY = none ∧ getJobStatus [] = "idle" :=
  ⟨rfl, c10_missing_status_key_reads_idle [] rfl⟩

/-- C4 counterexample: with the underlying store unreachable, the cached
fetcher does NOT propagate the cache error to its caller: it returns the
substitute UNKNOWN_ERROR JSON payload as an ordinary string — the catch-all
swallows the redis client error (no Unavailable error kind exists anywhere in
the code, and nothing is rethrown). -/
theorem c4_fetcher_swallows_unreachable_cache :
    fetcher "AAPL" { store := [], reachable := false } (some "key")
        (fun _ => AttemptOutcome.throwErr (JsError.network "unused"))
        (fun _ => AttemptOutcome.throwErr (JsError.network "unused")) =
      (errorJSON "UNKNOWN_ERROR" "An unexpected error occurred.",
       { store := [], reachable := false }, 0) := rfl

/-- C4 amended: `rcGet` and `rcSet` do fail (with the redis client's error)
whenever the store is unreachable, but the caller-facing cached fetcher does
not propagate that failure: for every non-empty key it catches the error and
returns the substitute UNKNOWN_ERROR JSON payload, issuing no external call. -/
theorem c4_get_set_fail_but_fetcher_swallows
    (key k v : String) (rs : RedisState) (apiKey : Option String)
    (oSEC : Nat → AttemptOutcome (List SECTickerEntry))
    (oAV : Nat → AttemptOutcome AlphaVantageResponse)
    (hur : rs.reachable = false) (hkey : key ≠ "") :
    rcGet rs k = .error (.other "ClientClosedError" "The client is closed") ∧
    rcSet rs k v = .error (.other "ClientClosedError" "The client is closed") ∧
    fetcher key rs apiKey oSEC oAV =
      (errorJSON "UNKNOWN_ERROR" "An unexpected error occurred.", rs, 0) := by
  refine ⟨?_, ?_, ?_⟩
  · simp [rcGet, hur]
  · simp [rcSet, hur]
  · simp [fetcher, hkey, rcGet, hur, catchToJSON]

theorem c4_get_set_fail_but_fetcher_swallows_witness :
    rcGet { store := [], reachable := false } "x" =
      .error (.other "ClientClosedError" "The client is closed") ∧
    rcSet { store := [], reachable := false } "x" "y" =
      .error (.other "ClientClosedError" "The client is closed") ∧
    fetcher "AAPL" { store := [], reachable := false } none
        (fun _ => AttemptOutcome.throwErr (JsError.network "u"))
        (fun _ => AttemptOutcome.throwErr (JsError.network "u")) =
      (errorJSON "UNKNOWN_ERROR" "An unexpected error occurred.",
       { store := [], reachable := false }, 0) :=
  c4_get_set_fail_but_fetcher_swallows "AAPL" "x" "y"
    { store := [], reachable := false } none
    (fun _ => AttemptOutcome.throwErr (JsError.network "u"))
    (fun _ => AttemptOutcome.throwErr (JsError.network "u")) rfl (by decide)

/-- C1: the job's per-symbol fetch does NOT go through the per-symbol cache
read-through. `runSnapshotJob` calls `fetchStockFundamentals`, which takes no
cache input and always issues at least one external HTTP attempt, so a symbol
already cached is re-fetched against the external API — contradicting both the
claim and the source's own comment ("fetchStockFundamentals checks its own
cache", snapshotJob.ts). Concretely: with "AAA" cached, the read-through
`fetcher` returns the cached entry with 0 external attempts, while the job's
run over ["AAA"] issues 1 external HTTP call for "AAA". -/
theorem c1_job_refetches_cached_symbol :
    (fetcher "AAA" { store := [("AAA", stockDataJSON aaaRecord)], reachable := true }
        (some "key") (fun _ => AttemptOutcome.throwErr (JsError.network "unused"))
        (scenarioAvOracle "AAA")).2.2 = 0 ∧
    runSnapshotJob scenarioEnv none (some ["AAA"]) "T0" 60 =
      .ok [JobEvent.statusWrite "running",
           JobEvent.progressWrite ⟨0, 1, "T0", 1⟩ 0,
           JobEvent.statusCheck 0 (some "running"),
           JobEvent.httpCall 0 "AAA" 1,
           JobEvent.progressWrite ⟨1, 1, "T0", 0⟩ 0,
           JobEvent.snapshotWrite [aaaRecord],
           JobEvent.statusWrite "idle"] := by
  exact ⟨rfl, by with_unfolding_all rfl⟩

/-- C2 counterexample: in the scenario (universe ["AAA","BBB"], AAA yields
4.0%, BBB fails with Validation) the persisted snapshot is [AAA record] and
the status ends "idle", but the final persisted progress has completed = 0,
not 2: the only progress write of the whole run is the initialization write —
a failed fetch increments `failed` (not `completed`), and completed = 1
satisfies neither `completed % 50 == 0` nor `completed == total`. -/
theorem c2_final_progress_completed_is_zero_not_two :
    runSnapshotJob scenarioEnv none (some ["AAA", "BBB"]) "T0" 60 = .ok c2Trace ∧
    progressWritesOf c2Trace = [(⟨0, 2, "T0", 1⟩, 0)] := by
  exact ⟨by with_unfolding_all rfl, rfl⟩

/-- C2 amended: the run over ["AAA","BBB"] (AAA yields 4.0%, BBB fails with
Validation) terminates with persisted snapshot exactly [the AAA record], job
status "idle" written last — but the final persisted progress is the
initialization write with completed = 0 (no checkpoint condition ever
triggers: the success leaves completed = 1 and the failure increments only
`failed`). -/
theorem c2_scenario_end_state :
    runSnapshotJob scenarioEnv none (some ["AAA", "BBB"]) "T0" 60 = .ok c2Trace ∧
    snapshotWritesOf c2Trace = [[aaaRecord]] ∧
    c2Trace.getLast? = some (JobEvent.statusWrite "idle") ∧
    (progressWritesOf c2Trace).getLast? = some (⟨0, 2, "T0", 1⟩, 0) := by
  exact ⟨by with_unfolding_all rfl, rfl, rfl, rfl⟩

/-- C3 counterexample: checkpointing is NOT unconditional on the final symbol.
In the run over ["AAA","BBB"] where AAA fails and BBB succeeds, a checkpoint
fires after AAA (completed = 0, and 0 % 50 = 0) but none fires after the final
symbol BBB: there completed = 1, which is neither a multiple of 50 nor equal
to total = 2 (the failure keeps completed below total). The completed counts
persisted over the whole run are [0, 0] — no write records the final symbol. -/
theorem c3_no_checkpoint_on_final_symbol :
    runSnapshotJob c3Env none (some ["AAA", "BBB"]) "T0" 60 = .ok c3Trace ∧
    completedsOf c3Trace = [0, 0] := by
  exact ⟨by with_unfolding_all rfl, rfl⟩

theorem mem_completedsOf {w : JobProgress × Nat} :
    ∀ {tr : List JobEvent}, w ∈ progressWritesOf tr → w.1.completed ∈ completedsOf tr := by
  intro tr
  induction tr with
  | nil => intro h; simp [progressWritesOf] at h
  | cons e tr ih =>
    intro h
    cases e with
    | progressWrite p f =>
      simp only [progressWritesOf, List.mem_cons] at h
      rcases h with h | h
      · subst h; simp [completedsOf]
      · simp [completedsOf, ih h]
    | statusCheck i o => exact ih h
    | httpCall i t n => exact ih h
    | snapshotWrite s => exact ih h
    | statusWrite s => exact ih h

theorem jobLoop_progressWrites_inv (env : JobEnv) (total rpm : Nat) :
    ∀ (rest : List String) (i c f : Nat) (snap : List StockData) (pv : JobProgress),
      ∀ w ∈ progressWritesOf (jobLoop env total rpm rest i c f snap pv),
        w.1.startedAt = pv.startedAt ∧ w.1.total = total ∧
        w.1.estimatedMinutes = ceilDiv (total - w.1.completed - w.2) rpm ∧
        (w.1.completed % 50 = 0 ∨ w.1.completed = total) := by
  intro rest
  induction rest with
  | nil =>
    intro i c f snap pv w hw
    simp [jobLoop, progressWritesOf] at hw
  | cons t rest ih =>
    intro i c f snap pv w hw
    simp only [jobLoop] at hw
    split at hw
    · simp [progressWritesOf] at hw
    · split at hw
      · rename_i hcp
        simp only [progressWritesOf, List.mem_cons] at hw
        rcases hw with hw | hw
        · subst hw
          exact ⟨rfl, rfl, rfl, hcp⟩
        · have h2 := ih (i + 1) _ _ _ _ w hw
          exact ⟨h2.1, h2.2.1, h2.2.2.1, h2.2.2.2⟩
      · exact ih (i + 1) _ _ _ _ w hw

/-- C3 amended: every progress write of a run — the initial one included —
carries the `startedAt` taken at initialization unchanged and an estimate
recomputed as ceil((total − completed − failed) / requestRate); and a write
happens only when `completed % 50 = 0` or `completed = total`. The checkpoint
on the final symbol is therefore NOT unconditional: it occurs exactly when no
symbol failed (otherwise `completed < total` there). -/
theorem c3_checkpoints_recompute_estimate_preserve_startedAt
    (env : JobEnv) (st : Option String) (tks : Option (List String))
    (now : String) (rpm : Nat) (tr : List JobEvent)
    (h : runSnapshotJob env st tks now rpm = .ok tr) :
    ∀ w ∈ progressWritesOf tr,
      w.1.startedAt = now ∧
      w.1.estimatedMinutes = ceilDiv (w.1.total - w.1.completed - w.2) rpm ∧
      (w.1.completed % 50 = 0 ∨ w.1.completed = w.1.total) := by
  intro w hw
  simp only [runSnapshotJob] at h
  split at h
  · injection h with h
    subst h
    simp [progressWritesOf] at hw
  · split at h
    · simp at h
    · injection h with h
      subst h
      simp only [progressWritesOf, List.mem_cons] at hw
      rcases hw with hw | hw
      · subst hw
        exact ⟨rfl, rfl, Or.inl rfl⟩
      · have h2 := jobLoop_progressWrites_inv env _ rpm _ _ _ _ _ _ w hw
        refine ⟨h2.1, ?_, ?_⟩
        · rw [h2.2.2.1, h2.2.1]
        · rw [h2.2.1]
          exact h2.2.2.2

theorem c3_checkpoints_recompute_estimate_preserve_startedAt_witness :
    ("T0" : String) = "T0" ∧
    (0 : Nat) = ceilDiv (1 - 0 - 1) 60 ∧
    ((0 : Nat) % 50 = 0 ∨ (0 : Nat) = 1) :=
  c3_checkpoints_recompute_estimate_preserve_startedAt failEnv none (some ["AAA"])
    "T0" 60
    [JobEvent.statusWrite "running", JobEvent.progressWrite ⟨0, 1, "T0", 1⟩ 0,
     JobEvent.statusCheck 0 (some "running"), JobEvent.httpCall 0 "AAA" 1,
     JobEvent.progressWrite ⟨0, 1, "T0", 0⟩ 1, JobEvent.snapshotWrite [],
     JobEvent.statusWrite "idle"]
    rfl (⟨0, 1, "T0", 0⟩, 1) (by decide)

theorem jobLoop_completeds_bounds (env : JobEnv) (total rpm : Nat) :
    ∀ (rest : List String) (i c f : Nat) (snap : List StockData) (pv : JobProgress),
      c + f + rest.length = total →
      List.Chain' (· ≤ ·) (completedsOf (jobLoop env total rpm rest i c f snap pv)) ∧
      ∀ n ∈ completedsOf (jobLoop env total rpm rest i c f snap pv), c ≤ n ∧ n ≤ total := by
  intro rest
  induction rest with
  | nil =>
    intro i c f snap pv _hsum
    constructor
    · simp [jobLoop, completedsOf]
    · intro n hn
      simp [jobLoop, completedsOf] at hn
  | cons t rest ih =>
    intro i c f snap pv hsum
    simp only [List.length_cons] at hsum
    simp only [jobLoop]
    split
    · constructor
      · simp [completedsOf]
      · intro n hn
        simp [completedsOf] at hn
    · cases hfe : (env.fetchAt i t).1 with
      | ok d =>
        simp only [hfe]
        split
        · have hrec := ih (i + 1) (c + 1) f
            (if d.yield > 0 then snap ++ [d] else snap)
            ⟨c + 1, total, pv.startedAt, ceilDiv (total - (c + 1) - f) rpm⟩
            (by omega)
          constructor
          · simp only [completedsOf]
            rw [List.chain'_cons']
            refine ⟨?_, hrec.1⟩
            intro b hb
            exact (hrec.2 b (List.mem_of_mem_head? hb)).1
          · intro n hn
            simp only [completedsOf, List.mem_cons] at hn
            rcases hn with hn | hn
            · refine ⟨?_, ?_⟩
              · rw [hn]
                exact Nat.le_succ c
              · rw [hn]
                calc c + 1 ≤ c + f + (rest.length + 1) := by omega
                  _ = total := hsum
            · have h2 := hrec.2 n hn
              exact ⟨Nat.le_of_succ_le h2.1, h2.2⟩
        · have hrec := ih (i + 1) (c + 1) f
            (if d.yield > 0 then snap ++ [d] else snap) pv (by omega)
          constructor
          · simpa only [completedsOf] using hrec.1
          · intro n hn
            simp only [completedsOf] at hn
            have h2 := hrec.2 n hn
            exact ⟨Nat.le_of_succ_le h2.1, h2.2⟩
      | error e =>
        simp only [hfe]
        split
        · have hrec := ih (i + 1) c (f + 1) snap
            ⟨c, total, pv.startedAt, ceilDiv (total - c - (f + 1)) rpm⟩
            (by omega)
          constructor
          · simp only [completedsOf]
            rw [List.chain'_cons']
            refine ⟨?_, hrec.1⟩
            intro b hb
            exact (hrec.2 b (List.mem_of_mem_head? hb)).1
          · intro n hn
            simp only [completedsOf, List.mem_cons] at hn
            rcases hn with hn | hn
            · refine ⟨le_of_eq hn.symm, ?_⟩
              rw [hn]
              calc c ≤ c + f + (rest.length + 1) := by omega
                _ = total := hsum
            · exact hrec.2 n hn
        · have hrec := ih (i + 1) c (f + 1) snap pv (by omega)
          constructor
          · simpa only [completedsOf] using hrec.1
          · intro n hn
            simp only [completedsOf] at hn
            exact hrec.2 n hn

/-- C9: within a single run, the `completed` values over the sequence of
progress writes (the initial write and every checkpoint) are monotonically
non-decreasing, and every written progress record satisfies
`completed ≤ total`. -/
theorem c9_progress_completed_monotone_bounded
    (env : JobEnv) (st : Option String) (tks : Option (List String))
    (now : String) (rpm : Nat) (tr : List JobEvent)
    (h : runSnapshotJob env st tks now rpm = .ok tr) :
    List.Chain' (· ≤ ·) (completedsOf tr) ∧
    ∀ w ∈ progressWritesOf tr, w.1.completed ≤ w.1.total := by
  simp only [runSnapshotJob] at h
  split at h
  · injection h with h
    subst h
    constructor
    · simp [completedsOf]
    · intro w hw
      simp [progressWritesOf] at hw
  · split at h
    · simp at h
    · rename_i tickers
      injection h with h
      subst h
      have hb := jobLoop_completeds_bounds env tickers.length rpm tickers 0 0 0 []
        ⟨0, tickers.length, now, ceilDiv tickers.length rpm⟩ (by simp)
      constructor
      · simp only [completedsOf]
        rw [List.chain'_cons']
        exact ⟨fun b _ => Nat.zero_le b, hb.1⟩
      · intro w hw
        simp only [progressWritesOf, List.mem_cons] at hw
        rcases hw with hw | hw
        · subst hw
          exact Nat.zero_le _
        · have h2 := jobLoop_progressWrites_inv env tickers.length rpm tickers 0 0 0 []
            ⟨0, tickers.length, now, ceilDiv tickers.length rpm⟩ w hw
          have h3 := (hb.2 w.1.completed (mem_completedsOf hw)).2
          rw [h2.2.1]
          exact h3

theorem c9_progress_completed_monotone_bounded_witness :
    List.Chain' (fun a b => a ≤ b) (completedsOf
      [JobEvent.statusWrite "running", JobEvent.progressWrite ⟨0, 1, "T0", 1⟩ 0,
       JobEvent.statusCheck 0 (some "running"), JobEvent.httpCall 0 "AAA" 1,
       JobEvent.progressWrite ⟨0, 1, "T0", 0⟩ 1, JobEvent.snapshotWrite [],
       JobEvent.statusWrite "idle"]) ∧
    (0 : Nat) ≤ 1 :=
  ⟨(c9_progress_completed_monotone_bounded failEnv none (some ["AAA"]) "T0" 60
      [JobEvent.statusWrite "running", JobEvent.progressWrite ⟨0, 1, "T0", 1⟩ 0,
       JobEvent.statusCheck 0 (some "running"), JobEvent.httpCall 0 "AAA" 1,
       JobEvent.progressWrite ⟨0, 1, "T0", 0⟩ 1, JobEvent.snapshotWrite [],
       JobEvent.statusWrite "idle"] rfl).1,
   (c9_progress_completed_monotone_bounded failEnv none (some ["AAA"]) "T0" 60
      [JobEvent.statusWrite "running", JobEvent.progressWrite ⟨0, 1, "T0", 1⟩ 0,
       JobEvent.statusCheck 0 (some "running"), JobEvent.httpCall 0 "AAA" 1,
       JobEvent.progressWrite ⟨0, 1, "T0", 0⟩ 1, JobEvent.snapshotWrite [],
       JobEvent.statusWrite "idle"] rfl).2 (⟨0, 1, "T0", 0⟩, 1) (by decide)⟩

theorem jobLoop_cancel_inv (env : JobEnv) (total rpm k : Nat)
    (hk : env.statusAt k ≠ some "running") :
    ∀ (rest : List String) (i c f : Nat) (snap : List StockData) (pv : JobProgress),
      (∀ j, i ≤ j → j < k → env.statusAt j = some "running") →
      i ≤ k → k < i + rest.length →
      (∀ s, JobEvent.snapshotWrite s ∉ jobLoop env total rpm rest i c f snap pv) ∧
      (∀ i2 t2 n2, JobEvent.httpCall i2 t2 n2 ∈ jobLoop env total rpm rest i c f snap pv → i2 < k) := by
  intro rest
  induction rest with
  | nil =>
    intro i c f snap pv _hb hik hlen
    simp only [List.length_nil, Nat.add_zero] at hlen
    exact absurd hlen (by omega)
  | cons t rest ih =>
    intro i c f snap pv hb hik hlen
    simp only [List.length_cons] at hlen
    by_cases hek : i = k
    · subst hek
      have htr : jobLoop env total rpm (t :: rest) i c f snap pv =
          [JobEvent.statusCheck i (env.statusAt i)] := by
        simp only [jobLoop]
        rw [if_pos hk]
      rw [htr]
      constructor
      · intro s hs
        simp at hs
      · intro i2 t2 n2 h2
        simp at h2
    · have hlt : i < k := Nat.lt_of_le_of_ne hik hek
      have hrun : env.statusAt i = some "running" := hb i (Nat.le_refl i) hlt
      have hb2 : ∀ j, i + 1 ≤ j → j < k → env.statusAt j = some "running" :=
        fun j hj1 hj2 => hb j (by omega) hj2
      simp only [jobLoop]
      rw [if_neg (by simp [hrun])]
      split
      · constructor
        · intro s hs
          simp only [List.mem_cons] at hs
          rcases hs with h | h | h | h
          · simp at h
          · simp at h
          · simp at h
          · exact (ih (i + 1) _ _ _ _ hb2 (by omega) (by omega)).1 s h
        · intro i2 t2 n2 h2
          simp only [List.mem_cons] at h2
          rcases h2 with h | h | h | h
          · simp at h
          · simp only [JobEvent.httpCall.injEq] at h
            omega
          · simp at h
          · exact (ih (i + 1) _ _ _ _ hb2 (by omega) (by omega)).2 i2 t2 n2 h
      · constructor
        · intro s hs
          simp only [List.mem_cons] at hs
          rcases hs with h | h | h
          · simp at h
          · simp at h
          · exact (ih (i + 1) _ _ _ _ hb2 (by omega) (by omega)).1 s h
        · intro i2 t2 n2 h2
          simp only [List.mem_cons] at h2
          rcases h2 with h | h | h
          · simp at h
          · simp only [JobEvent.httpCall.injEq] at h
            omega
          · exact (ih (i + 1) _ _ _ _ hb2 (by omega) (by omega)).2 i2 t2 n2 h

/-- C8: if every status read before iteration `k` observes "running" but the
read at iteration `k` (within the universe) does not — i.e. the status was set
away from Running during the run — then the run stops at the top of iteration
`k`: every external HTTP call of the whole run belongs to an earlier iteration
(none is issued at or after `k`), and no snapshot — in particular no partial
snapshot — is persisted by the run. -/
theorem c8_cancel_stops_before_next_call_and_persists_no_snapshot
    (env : JobEnv) (st : Option String) (tickers : List String)
    (now : String) (rpm k : Nat)
    (hst : st ≠ some "running")
    (hb : ∀ j, j < k → env.statusAt j = some "running")
    (hk : env.statusAt k ≠ some "running")
    (hlen : k < tickers.length) :
    ∃ tr, runSnapshotJob env st (some tickers) now rpm = .ok tr ∧
      (∀ s, JobEvent.snapshotWrite s ∉ tr) ∧
      (∀ i t n, JobEvent.httpCall i t n ∈ tr → i < k) := by
  have hloop := jobLoop_cancel_inv env tickers.length rpm k hk tickers 0 0 0 []
    ⟨0, tickers.length, now, ceilDiv tickers.length rpm⟩
    (fun j _ hj => hb j hj) (Nat.zero_le k) (by simpa using hlen)
  refine ⟨JobEvent.statusWrite "running" ::
      JobEvent.progressWrite ⟨0, tickers.length, now, ceilDiv tickers.length rpm⟩ 0 ::
      jobLoop env tickers.length rpm tickers 0 0 0 []
        ⟨0, tickers.length, now, ceilDiv tickers.length rpm⟩, ?_, ?_, ?_⟩
  · simp only [runSnapshotJob]
    rw [if_neg hst]
  · intro s hs
    simp only [List.mem_cons] at hs
    rcases hs with h | h | h
    · simp at h
    · simp at h
    · exact hloop.1 s h
  · intro i t n h2
    simp only [List.mem_cons] at h2
    rcases h2 with h | h | h
    · simp at h
    · simp at h
    · exact hloop.2 i t n h

theorem c8_cancel_stops_before_next_call_and_persists_no_snapshot_witness :
    ∃ tr, runSnapshotJob cancelEnv none (some ["AAA"]) "T0" 60 = .ok tr ∧
      (∀ s, JobEvent.snapshotWrite s ∉ tr) ∧
      (∀ i t n, JobEvent.httpCall i t n ∈ tr → i < 0) :=
  c8_cancel_stops_before_next_call_and_persists_no_snapshot cancelEnv none ["AAA"]
    "T0" 60 0 (by decide) (fun j hj => absurd hj (Nat.not_lt_zero j)) (by decide)
    (by decide)

theorem c5_always_503_four_attempts_network_error_witness :
    fetchWithRetry
      (fun i => AttemptOutcome.response 503 ((fun _ => none) i)
        ((fun _ => Except.error (JsError.other "SyntaxError" "x") : Nat → Except JsError Unit) i)) 3 =
      (Except.error (JsError.network "Server error: 503"), 4) :=
  c5_always_503_four_attempts_network_error (fun _ => none)
    (fun _ => Except.error (JsError.other "SyntaxError" "x"))

theorem c7_sector_mapping_total_closed_range_witness :
    getSectorTranslation "Technology" ∈ sectorLabels ∧
    getSectorTranslation (getSectorTranslation "Technology") =
      (if getSectorTranslation "Technology" = "Energy" ∨
          getSectorTranslation "Technology" = "Unknown"
       then getSectorTranslation "Technology" else "Unknown") :=
  c7_sector_mapping_total_closed_range "Technology"
